import Mathlib

/-!
Verification of the `Processor` node of `easy_perception_deployment`
(`src/easy_perception_deployment/include/epd_utils_lib/processor.hpp`).

The development is a shallow embedding of `Processor::topic_callback` and
`Processor::state_callback`.  Machine integers of the source are modelled
as `Nat` / `Int`; the C++ `throw std::runtime_error` is modelled by the
`Except.error` branch of the callback's result; the ROS publishers are
modelled by the list of `Published` events the callback emits; the log
statements by `LogEvent`s.  Floating-point scores are only ever copied by
the code under verification (no arithmetic is performed on them), so they
are represented by `Rat`.
-/

/-- A ROS `sensor_msgs::msg::Image` as far as the processor consults it:
a reported `height` and `width` and an opaque pixel payload. -/
structure ImageMsg where
  height : Nat
  width : Nat
  data : List Nat
  deriving DecidableEq, Repr

/-- A decoded `cv::Mat`: column count, row count and opaque pixel payload. -/
structure CvMat where
  cols : Nat
  rows : Nat
  data : List Nat
  deriving DecidableEq, Repr, Inhabited

/-- Modelled from the spec: `cv_bridge::toCvCopy(msg, "bgr8")` (external
collaborator, not in the repository).  Spec 4.1 guarantees the decoder
"produces a pixel buffer whose (cols, rows) match the message's
(width, height)" and preserves pixel values. -/
def toCvCopy (msg : ImageMsg) : CvMat :=
  { cols := msg.width, rows := msg.height, data := msg.data }

/-- A detector bounding box `(x1, y1, x2, y2)`; the source reads it as
`result.bboxes[i][0] .. result.bboxes[i][3]`. -/
structure Bbox where
  x1 : Nat
  y1 : Nat
  x2 : Nat
  y2 : Nat
  deriving DecidableEq, Repr, Inhabited

/-- `sensor_msgs::msg::RegionOfInterest` as populated by the projector. -/
structure RegionOfInterest where
  x_offset : Nat
  y_offset : Nat
  width : Nat
  height : Nat
  do_rectify : Bool
  deriving DecidableEq, Repr, Inhabited

/-- A ROS image message produced via `cv_bridge::CvImage(...).toImageMsg()`:
an encoding string plus the wrapped matrix. -/
structure RosImage where
  encoding : String
  mat : CvMat
  deriving DecidableEq, Repr, Inhabited

/-- Modelled from the spec: `EPD::EPDObjectDetection`, the structured
detector result struct (declared in `epd_utils_lib`, not in the
repository snapshot).  Spec 3 gives its fields: `data_size` N, parallel
sequences `class_indices`, `scores`, `bboxes`, and (P3 only) `masks`.
Field names follow the accesses in `processor.hpp`. -/
structure EPDObjectDetectionResult where
  data_size : Nat
  classIndices : List Int
  scores : List Rat
  bboxes : List Bbox
  masks : List CvMat
  deriving DecidableEq, Repr

/-- `epd_msgs::msg::EPDImageClassification`: the P1 output message. -/
structure EPDImageClassificationMsg where
  object_names : List String
  deriving DecidableEq, Repr

/-- `epd_msgs::msg::EPDObjectDetection`: the P2/P3 output message. -/
structure EPDObjectDetectionMsg where
  class_indices : List Int
  scores : List Rat
  bboxes : List RegionOfInterest
  masks : List RosImage
  deriving DecidableEq, Repr

/-- One publication event, tagged by the output topic used:
`/processor/output` (visual), `/processor/epd_p1_output`,
`/processor/epd_p2_output`, `/processor/epd_p3_output`. -/
inductive Published where
  | visual (img : RosImage)
  | p1 (msg : EPDImageClassificationMsg)
  | p2 (msg : EPDObjectDetectionMsg)
  | p3 (msg : EPDObjectDetectionMsg)
  deriving DecidableEq, Repr

/-- The log lines `topic_callback` can emit: the empty-frame warning
`"Input image empty. Discarding."` and the per-frame FPS INFO line. -/
inductive LogEvent where
  | warnEmpty
  | fps
  deriving DecidableEq, Repr

/-- The outcome of `state_callback`: either `rclcpp::shutdown()` was
invoked, or the `"Invalid state requested."` warning was logged. -/
inductive ControlResult where
  | shutdown
  | warnedInvalid
  deriving DecidableEq, Repr

/-- The inference session handle bundle behind `ortAgent_`: the
`p1_ort_session->infer`, `p2/p3_ort_session->infer_visualize` and
`infer_action` entry points.  They are external collaborators (spec 6,
"Session contract"), modelled as opaque function parameters. -/
structure OrtSession where
  p1_infer : CvMat → List String
  p2_infer_visualize : CvMat → CvMat
  p2_infer_action : CvMat → EPDObjectDetectionResult
  p3_infer_visualize : CvMat → CvMat
  p3_infer_action : CvMat → EPDObjectDetectionResult

/-- The mutable state of `EPD::EPDContainer` as consulted by
`processor.hpp`: the `isInit` boolean, the stored frame dimensions, the
`precision_level`, and the `onlyVisualize` flag read through
`isVisualize()`.  `sessionInits` counts the calls made to
`initORTSessionHandler` (it exists only to state the one-shot property;
the source initializes the ORT session exactly when it is incremented). -/
structure EPDContainer where
  isInit : Bool
  width : Nat
  height : Nat
  precision_level : Int
  visualize : Bool
  sessionInits : Nat
  deriving DecidableEq, Repr

/-- The session-bootstrap block of `topic_callback`
(`processor.hpp` lines 142-158): on an uninitialized container, store the
frame dimensions, initialize the ORT session handler and set the init
boolean; on an initialized one, throw
`"Input camera changed. Please restart."` exactly when BOTH stored width
differs from `img.cols` AND stored height differs from `img.rows`. -/
def sessionBootstrap (ortAgent : EPDContainer) (img : CvMat) :
    Except String EPDContainer :=
  if ortAgent.isInit = false then
    Except.ok { ortAgent with
      width := img.cols, height := img.rows,
      sessionInits := ortAgent.sessionInits + 1, isInit := true }
  else if ortAgent.width ≠ img.cols ∧ ortAgent.height ≠ img.rows then
    Except.error "Input camera changed. Please restart."
  else
    Except.ok ortAgent

/-- The per-box projection of the P2/P3 non-visualize branches:
`roi.x_offset = bboxes[i][0]`, `roi.y_offset = bboxes[i][1]`,
`roi.width = bboxes[i][2] - bboxes[i][0]`,
`roi.height = bboxes[i][3] - bboxes[i][1]`, `roi.do_rectify = false`. -/
def roiOfBbox (b : Bbox) : RegionOfInterest :=
  { x_offset := b.x1, y_offset := b.y1,
    width := b.x2 - b.x1, height := b.y2 - b.y1, do_rectify := false }

/-- The P2 result-projection loop (`processor.hpp` lines 183-197):
`for i in 0 .. data_size`, append `classIndices[i]`, `scores[i]` and the
projected RoI of `bboxes[i]` to the output message.  List indexing uses
`getD`; the loop range is exactly `[0, data_size)` as in the source. -/
def projectP2 (result : EPDObjectDetectionResult) : EPDObjectDetectionMsg :=
  { class_indices :=
      (List.range result.data_size).map (fun i => result.classIndices.getD i 0),
    scores :=
      (List.range result.data_size).map (fun i => result.scores.getD i 0),
    bboxes :=
      (List.range result.data_size).map
        (fun i => roiOfBbox (result.bboxes.getD i default)),
    masks := [] }

/-- The P3 result-projection loop (`processor.hpp` lines 211-229): as
`projectP2`, and additionally each `masks[i]` is wrapped as a `"32FC1"`
image and appended to the output's `masks`. -/
def projectP3 (result : EPDObjectDetectionResult) : EPDObjectDetectionMsg :=
  { class_indices :=
      (List.range result.data_size).map (fun i => result.classIndices.getD i 0),
    scores :=
      (List.range result.data_size).map (fun i => result.scores.getD i 0),
    bboxes :=
      (List.range result.data_size).map
        (fun i => roiOfBbox (result.bboxes.getD i default)),
    masks :=
      (List.range result.data_size).map
        (fun i => { encoding := "32FC1", mat := result.masks.getD i default }) }

/-- The `switch (ortAgent_.precision_level)` dispatch of `topic_callback`
(`processor.hpp` lines 164-239): case 1 publishes an
`EPDImageClassification`; cases 2 and 3 publish either the `"bgr8"`
visualization image (when `isVisualize()`) or the projected structured
message; the switch has no default case, so any other precision level
publishes nothing. -/
def inferenceDispatch (sess : OrtSession) (ortAgent : EPDContainer)
    (img : CvMat) : List Published :=
  if ortAgent.precision_level = 1 then
    [Published.p1 { object_names := sess.p1_infer img }]
  else if ortAgent.precision_level = 2 then
    if ortAgent.visualize = true then
      [Published.visual { encoding := "bgr8", mat := sess.p2_infer_visualize img }]
    else
      [Published.p2 (projectP2 (sess.p2_infer_action img))]
  else if ortAgent.precision_level = 3 then
    if ortAgent.visualize = true then
      [Published.visual { encoding := "bgr8", mat := sess.p3_infer_visualize img }]
    else
      [Published.p3 (projectP3 (sess.p3_infer_action img))]
  else
    []

/-- `Processor::topic_callback` (`processor.hpp` lines 127-245).
Returns `Except.error` for the thrown `std::runtime_error`, otherwise the
container state after the call together with the publications and log
lines emitted, in order.  The empty-frame guard tests `msg->height == 0`
only; the FPS INFO line is logged after the switch on every non-dropped,
non-throwing frame. -/
def topic_callback (sess : OrtSession) (ortAgent : EPDContainer)
    (msg : ImageMsg) :
    Except String (EPDContainer × List Published × List LogEvent) :=
  if msg.height = 0 then
    Except.ok (ortAgent, [], [LogEvent.warnEmpty])
  else
    let img := toCvCopy msg
    match sessionBootstrap ortAgent img with
    | Except.error e => Except.error e
    | Except.ok agent =>
        Except.ok (agent, inferenceDispatch sess agent img, [LogEvent.fps])

/-- `Processor::state_callback` (`processor.hpp` lines 116-125): compare
the payload against `"shutdown"`; on a match call `rclcpp::shutdown()`,
otherwise log `"Invalid state requested."`.  The container is returned
unchanged: the handler never touches it. -/
def state_callback (ortAgent : EPDContainer) (data : String) :
    EPDContainer × ControlResult :=
  (ortAgent,
   if data = "shutdown" then ControlResult.shutdown
   else ControlResult.warnedInvalid)

/-- Repeated invocation of `topic_callback`, threading the container
state and stopping at the first thrown error (a throw escapes the node). -/
def runFrames (sess : OrtSession) (ortAgent : EPDContainer) :
    List ImageMsg → Except String EPDContainer
  | [] => Except.ok ortAgent
  | msg :: rest =>
      match topic_callback sess ortAgent msg with
      | Except.error e => Except.error e
      | Except.ok (st, _, _) => runFrames sess st rest

/-- A stub session used only to instantiate witnesses at concrete inputs. -/
def stubSession : OrtSession :=
  { p1_infer := fun _ => ["cup", "book"],
    p2_infer_visualize := fun m => m,
    p2_infer_action := fun _ =>
      { data_size := 1, classIndices := [3], scores := [(9 : Rat) / 10],
        bboxes := [{ x1 := 10, y1 := 20, x2 := 110, y2 := 220 }], masks := [] },
    p3_infer_visualize := fun m => m,
    p3_infer_action := fun _ =>
      { data_size := 1, classIndices := [3], scores := [(9 : Rat) / 10],
        bboxes := [{ x1 := 10, y1 := 20, x2 := 110, y2 := 220 }],
        masks := [{ cols := 32, rows := 32, data := [] }] } }

/-- Indexing the projector's output lists: element `i` of a map over
`List.range n` is the function at `i`, for `i < n`. -/
theorem getD_map_range {α : Type} (f : Nat → α) (n i : Nat) (d : α)
    (hi : i < n) : ((List.range n).map f).getD i d = f i := by
  rw [List.getD_eq_getElem?_getD]
  simp [List.getElem?_map, List.getElem?_range, hi]

/-- Claim C2: a frame with reported height 0 is dropped: the callback
publishes nothing, logs the empty-frame warning, leaves the container
(in particular its init flag and init count) unchanged, and returns
normally. -/
theorem empty_frame_dropped (sess : OrtSession) (ortAgent : EPDContainer)
    (msg : ImageMsg) (hh : msg.height = 0) :
    topic_callback sess ortAgent msg =
      Except.ok (ortAgent, [], [LogEvent.warnEmpty]) := by
  simp [topic_callback, hh]

/-- Witness for C2 at the concrete frame `{height 0, width 640}`. -/
theorem empty_frame_dropped_witness :
    topic_callback stubSession
      { isInit := false, width := 0, height := 0, precision_level := 2,
        visualize := false, sessionInits := 0 }
      { height := 0, width := 640, data := [] } =
      Except.ok
        ({ isInit := false, width := 0, height := 0, precision_level := 2,
           visualize := false, sessionInits := 0 }, [],
         [LogEvent.warnEmpty]) :=
  empty_frame_dropped stubSession _ _ rfl

/-- Claim C3: every RoI the projector derives from a detector box
`(x1, y1, x2, y2)` — in the P2 and in the P3 non-visualize branch —
has `x_offset = x1`, `y_offset = y1`, `width = x2 - x1`,
`height = y2 - y1` (as integers, given the data-model invariant
`x1 ≤ x2`, `y1 ≤ y2`) and `do_rectify = false`. -/
theorem roi_projection_fields (b : Bbox) (r : EPDObjectDetectionResult)
    (i : Nat) (hx : b.x1 ≤ b.x2) (hy : b.y1 ≤ b.y2)
    (hi : i < r.data_size) (hb : r.bboxes.getD i default = b) :
    (projectP2 r).bboxes.getD i default = roiOfBbox b ∧
    (projectP3 r).bboxes.getD i default = roiOfBbox b ∧
    (roiOfBbox b).x_offset = b.x1 ∧ (roiOfBbox b).y_offset = b.y1 ∧
    ((roiOfBbox b).width : Int) = (b.x2 : Int) - (b.x1 : Int) ∧
    ((roiOfBbox b).height : Int) = (b.y2 : Int) - (b.y1 : Int) ∧
    (roiOfBbox b).do_rectify = false := by
  refine ⟨?_, ?_, rfl, rfl, ?_, ?_, rfl⟩
  · rw [projectP2]
    rw [getD_map_range _ _ _ _ hi, hb]
  · rw [projectP3]
    rw [getD_map_range _ _ _ _ hi, hb]
  · simp [roiOfBbox]
    omega
  · simp [roiOfBbox]
    omega

/-- Witness for C3 at the detector box `(10, 20, 110, 220)`. -/
theorem roi_projection_fields_witness :
    (projectP2 (stubSession.p2_infer_action default)).bboxes.getD 0 default =
      roiOfBbox { x1 := 10, y1 := 20, x2 := 110, y2 := 220 } ∧
    (projectP3 (stubSession.p2_infer_action default)).bboxes.getD 0 default =
      roiOfBbox { x1 := 10, y1 := 20, x2 := 110, y2 := 220 } ∧
    (roiOfBbox { x1 := 10, y1 := 20, x2 := 110, y2 := 220 }).x_offset = 10 ∧
    (roiOfBbox { x1 := 10, y1 := 20, x2 := 110, y2 := 220 }).y_offset = 20 ∧
    ((roiOfBbox { x1 := 10, y1 := 20, x2 := 110, y2 := 220 }).width : Int) =
      (110 : Int) - 10 ∧
    ((roiOfBbox { x1 := 10, y1 := 20, x2 := 110, y2 := 220 }).height : Int) =
      (220 : Int) - 20 ∧
    (roiOfBbox { x1 := 10, y1 := 20, x2 := 110, y2 := 220 }).do_rectify =
      false :=
  roi_projection_fields { x1 := 10, y1 := 20, x2 := 110, y2 := 220 }
    (stubSession.p2_infer_action default) 0 (by decide) (by decide)
    (by decide) (by decide)

/-- Claim C4: the P2 and P3 projectors emit exactly `data_size` elements
in each of `class_indices`, `scores` and `bboxes`, and (for P3) in
`masks`; the P2 message carries no masks. -/
theorem projector_lengths (r : EPDObjectDetectionResult) :
    (projectP2 r).class_indices.length = r.data_size ∧
    (projectP2 r).scores.length = r.data_size ∧
    (projectP2 r).bboxes.length = r.data_size ∧
    (projectP3 r).class_indices.length = r.data_size ∧
    (projectP3 r).scores.length = r.data_size ∧
    (projectP3 r).bboxes.length = r.data_size ∧
    (projectP3 r).masks.length = r.data_size := by
  refine ⟨?_, ?_, ?_, ?_, ?_, ?_, ?_⟩ <;> simp [projectP2, projectP3]

/-- Claim C5: for every `i < data_size`, element `i` of each projected
sequence is exactly element `i` of the corresponding detector sequence
(the bbox projected through `roiOfBbox`, the P3 mask wrapped as a 32FC1
image): iteration order is preserved and nothing is filtered,
thresholded or re-ranked. -/
theorem projector_preserves_order (r : EPDObjectDetectionResult) (i : Nat)
    (hi : i < r.data_size) :
    (projectP2 r).class_indices.getD i 0 = r.classIndices.getD i 0 ∧
    (projectP2 r).scores.getD i 0 = r.scores.getD i 0 ∧
    (projectP2 r).bboxes.getD i default =
      roiOfBbox (r.bboxes.getD i default) ∧
    (projectP3 r).class_indices.getD i 0 = r.classIndices.getD i 0 ∧
    (projectP3 r).scores.getD i 0 = r.scores.getD i 0 ∧
    (projectP3 r).bboxes.getD i default =
      roiOfBbox (r.bboxes.getD i default) ∧
    (projectP3 r).masks.getD i default =
      { encoding := "32FC1", mat := r.masks.getD i default } := by
  refine ⟨?_, ?_, ?_, ?_, ?_, ?_, ?_⟩ <;>
    · first
      | (rw [projectP2]; rw [getD_map_range _ _ _ _ hi])
      | (rw [projectP3]; rw [getD_map_range _ _ _ _ hi])

/-- Witness for C5 at index 0 of the stub detector output. -/
theorem projector_preserves_order_witness :
    (projectP2 (stubSession.p2_infer_action default)).class_indices.getD 0 0 =
      (stubSession.p2_infer_action default).classIndices.getD 0 0 ∧
    (projectP2 (stubSession.p2_infer_action default)).scores.getD 0 0 =
      (stubSession.p2_infer_action default).scores.getD 0 0 ∧
    (projectP2 (stubSession.p2_infer_action default)).bboxes.getD 0 default =
      roiOfBbox ((stubSession.p2_infer_action default).bboxes.getD 0 default) ∧
    (projectP3 (stubSession.p2_infer_action default)).class_indices.getD 0 0 =
      (stubSession.p2_infer_action default).classIndices.getD 0 0 ∧
    (projectP3 (stubSession.p2_infer_action default)).scores.getD 0 0 =
      (stubSession.p2_infer_action default).scores.getD 0 0 ∧
    (projectP3 (stubSession.p2_infer_action default)).bboxes.getD 0 default =
      roiOfBbox ((stubSession.p2_infer_action default).bboxes.getD 0 default) ∧
    (projectP3 (stubSession.p2_infer_action default)).masks.getD 0 default =
      { encoding := "32FC1",
        mat := (stubSession.p2_infer_action default).masks.getD 0 default } :=
  projector_preserves_order (stubSession.p2_infer_action default) 0 (by decide)

/-- Claim C8: the control handler never changes the container, and it
signals shutdown exactly when the payload equals `"shutdown"`; every
other payload yields the invalid-state warning. -/
theorem state_callback_spec (ortAgent : EPDContainer) (data : String) :
    (state_callback ortAgent data).1 = ortAgent ∧
    ((state_callback ortAgent data).2 = ControlResult.shutdown ↔
      data = "shutdown") ∧
    ((state_callback ortAgent data).2 = ControlResult.warnedInvalid ↔
      data ≠ "shutdown") := by
  refine ⟨rfl, ?_, ?_⟩ <;>
    by_cases h : data = "shutdown" <;> simp [state_callback, h]

/-- On an already-initialized container a non-empty frame either throws
the geometry error (when both dimensions differ) or runs to completion
with the container untouched. -/
theorem topic_callback_initialized (sess : OrtSession)
    (ortAgent : EPDContainer) (msg : ImageMsg)
    (hinit : ortAgent.isInit = true) (hh : msg.height ≠ 0) :
    topic_callback sess ortAgent msg =
      (if ortAgent.width ≠ msg.width ∧ ortAgent.height ≠ msg.height then
        Except.error "Input camera changed. Please restart."
      else
        Except.ok (ortAgent,
          inferenceDispatch sess ortAgent (toCvCopy msg),
          [LogEvent.fps])) := by
  by_cases hg : ortAgent.width ≠ msg.width ∧ ortAgent.height ≠ msg.height <;>
    simp [topic_callback, sessionBootstrap, toCvCopy, hinit, hh, hg]

/-- Claim C1: once the session is initialized, a (non-empty) frame makes
the callback throw `"Input camera changed. Please restart."` exactly when
BOTH its column count differs from the stored width AND its row count
differs from the stored height; when at most one dimension differs the
callback instead completes normally and processes the frame. -/
theorem geometry_change_rule (sess : OrtSession) (ortAgent : EPDContainer)
    (msg : ImageMsg) (hinit : ortAgent.isInit = true)
    (hh : msg.height ≠ 0) :
    (topic_callback sess ortAgent msg =
        Except.error "Input camera changed. Please restart." ↔
      ortAgent.width ≠ msg.width ∧ ortAgent.height ≠ msg.height) ∧
    (¬(ortAgent.width ≠ msg.width ∧ ortAgent.height ≠ msg.height) →
      topic_callback sess ortAgent msg =
        Except.ok (ortAgent,
          inferenceDispatch sess ortAgent (toCvCopy msg),
          [LogEvent.fps])) := by
  rw [topic_callback_initialized sess ortAgent msg hinit hh]
  by_cases hg : ortAgent.width ≠ msg.width ∧ ortAgent.height ≠ msg.height <;>
    simp [hg]

/-- Witness for C1: a session initialized at 640 by 480 and a 320 by 240
frame (both dimensions differ) throw the geometry error. -/
theorem geometry_change_rule_witness :
    topic_callback stubSession
      { isInit := true, width := 640, height := 480, precision_level := 2,
        visualize := false, sessionInits := 1 }
      { height := 240, width := 320, data := [] } =
      Except.error "Input camera changed. Please restart." :=
  (geometry_change_rule stubSession
      { isInit := true, width := 640, height := 480, precision_level := 2,
        visualize := false, sessionInits := 1 }
      { height := 240, width := 320, data := [] }
      rfl (by decide)).1.mpr (by decide)


/-- A successful bootstrap never changes `precision_level` or
`visualize`. -/
theorem sessionBootstrap_ok_inv (ortAgent : EPDContainer) (img : CvMat)
    (st : EPDContainer) (h : sessionBootstrap ortAgent img = Except.ok st) :
    st.precision_level = ortAgent.precision_level ∧
    st.visualize = ortAgent.visualize := by
  unfold sessionBootstrap at h
  by_cases hinit : ortAgent.isInit = false
  · rw [if_pos hinit] at h
    simp only [Except.ok.injEq] at h
    subst h
    exact ⟨rfl, rfl⟩
  · rw [if_neg hinit] at h
    by_cases hg : ortAgent.width ≠ img.cols ∧ ortAgent.height ≠ img.rows
    · rw [if_pos hg] at h
      exact absurd h (by simp)
    · rw [if_neg hg] at h
      simp only [Except.ok.injEq] at h
      subst h
      exact ⟨rfl, rfl⟩

/-- A non-empty frame runs bootstrap and then, on success, dispatch plus
the FPS log. -/
theorem topic_callback_run (sess : OrtSession) (ortAgent : EPDContainer)
    (msg : ImageMsg) (hh : msg.height ≠ 0) :
    topic_callback sess ortAgent msg =
      (match sessionBootstrap ortAgent (toCvCopy msg) with
      | Except.error e => Except.error e
      | Except.ok agent =>
          Except.ok (agent, inferenceDispatch sess agent (toCvCopy msg),
            [LogEvent.fps])) := by
  rw [topic_callback, if_neg hh]

/-- Inversion of a successful callback run: the publications are exactly
the dispatch of the post-bootstrap container, the FPS line is logged, and
bootstrap never changes `precision_level` or `visualize`. -/
theorem topic_callback_ok_inv (sess : OrtSession) (ortAgent : EPDContainer)
    (msg : ImageMsg) (st : EPDContainer) (pubs : List Published)
    (logs : List LogEvent) (hh : msg.height ≠ 0)
    (hok : topic_callback sess ortAgent msg = Except.ok (st, pubs, logs)) :
    pubs = inferenceDispatch sess st (toCvCopy msg) ∧
    logs = [LogEvent.fps] ∧
    st.precision_level = ortAgent.precision_level ∧
    st.visualize = ortAgent.visualize := by
  rw [topic_callback_run sess ortAgent msg hh] at hok
  cases hbs : sessionBootstrap ortAgent (toCvCopy msg) with
  | error e =>
      rw [hbs] at hok
      exact absurd hok (by simp)
  | ok agent =>
      rw [hbs] at hok
      simp only [Except.ok.injEq, Prod.mk.injEq] at hok
      obtain ⟨hst, hpubs, hlogs⟩ := hok
      subst hst
      obtain ⟨hp, hv⟩ := sessionBootstrap_ok_inv ortAgent (toCvCopy msg) _ hbs
      exact ⟨hpubs.symm, hlogs.symm, hp, hv⟩

/-- Claim C6: a successfully processed frame publishes on exactly one
topic, selected by `(precision_level, visualize)`: P1 publishes only the
classification message whatever `visualize` is; P2/P3 publish only the
visualization image when `visualize` is set and only the structured
message otherwise. -/
theorem single_topic_per_frame (sess : OrtSession) (ortAgent : EPDContainer)
    (msg : ImageMsg) (st : EPDContainer) (pubs : List Published)
    (logs : List LogEvent) (hh : msg.height ≠ 0)
    (hok : topic_callback sess ortAgent msg = Except.ok (st, pubs, logs)) :
    (ortAgent.precision_level = 1 → ∃ m, pubs = [Published.p1 m]) ∧
    (ortAgent.precision_level = 2 ∧ ortAgent.visualize = true →
      ∃ im, pubs = [Published.visual im]) ∧
    (ortAgent.precision_level = 2 ∧ ortAgent.visualize = false →
      ∃ m, pubs = [Published.p2 m]) ∧
    (ortAgent.precision_level = 3 ∧ ortAgent.visualize = true →
      ∃ im, pubs = [Published.visual im]) ∧
    (ortAgent.precision_level = 3 ∧ ortAgent.visualize = false →
      ∃ m, pubs = [Published.p3 m]) := by
  obtain ⟨hpubs, hlogs, hp, hv⟩ :=
    topic_callback_ok_inv sess ortAgent msg st pubs logs hh hok
  subst hpubs
  refine ⟨?_, ?_, ?_, ?_, ?_⟩
  · intro h1
    exact ⟨{ object_names := sess.p1_infer (toCvCopy msg) },
      by simp [inferenceDispatch, hp, h1]⟩
  · rintro ⟨h2, hvis⟩
    exact ⟨{ encoding := "bgr8", mat := sess.p2_infer_visualize (toCvCopy msg) },
      by simp [inferenceDispatch, hp, hv, h2, hvis]⟩
  · rintro ⟨h2, hvis⟩
    exact ⟨projectP2 (sess.p2_infer_action (toCvCopy msg)),
      by simp [inferenceDispatch, hp, hv, h2, hvis]⟩
  · rintro ⟨h3, hvis⟩
    exact ⟨{ encoding := "bgr8", mat := sess.p3_infer_visualize (toCvCopy msg) },
      by simp [inferenceDispatch, hp, hv, h3, hvis]⟩
  · rintro ⟨h3, hvis⟩
    exact ⟨projectP3 (sess.p3_infer_action (toCvCopy msg)),
      by simp [inferenceDispatch, hp, hv, h3, hvis]⟩

/-- Witness for C6: a P2 non-visualize frame on a fresh container
publishes exactly the structured P2 message. -/
theorem single_topic_per_frame_witness :
    ∃ st pubs logs,
      topic_callback stubSession
        { isInit := false, width := 0, height := 0, precision_level := 2,
          visualize := false, sessionInits := 0 }
        { height := 480, width := 640, data := [] } =
        Except.ok (st, pubs, logs) ∧
      ∃ m, pubs = [Published.p2 m] := by
  refine ⟨_, _, _, rfl, ?_⟩
  exact (single_topic_per_frame stubSession
    { isInit := false, width := 0, height := 0, precision_level := 2,
      visualize := false, sessionInits := 0 }
    { height := 480, width := 640, data := [] } _ _ _
    (by decide) rfl).2.2.1 (by decide)

/-- The container state after the first bootstrap on frame `msg`. -/
def bootedAgent (ortAgent : EPDContainer) (msg : ImageMsg) : EPDContainer :=
  { ortAgent with
      width := msg.width, height := msg.height,
      sessionInits := ortAgent.sessionInits + 1, isInit := true }

/-- First valid frame on an uninitialized container: bootstrap stores the
frame dimensions, initializes the session handler once, sets the init
flag, and the frame is dispatched. -/
theorem topic_callback_first (sess : OrtSession) (ortAgent : EPDContainer)
    (msg : ImageMsg) (hh : msg.height ≠ 0)
    (hinit : ortAgent.isInit = false) :
    topic_callback sess ortAgent msg =
      Except.ok (bootedAgent ortAgent msg,
        inferenceDispatch sess (bootedAgent ortAgent msg) (toCvCopy msg),
        [LogEvent.fps]) := by
  rw [topic_callback_run sess ortAgent msg hh]
  unfold sessionBootstrap
  rw [if_pos hinit]
  rfl

/-- A frame identical in geometry to the stored one, on an initialized
container, is processed and leaves the container untouched. -/
theorem topic_callback_steady (sess : OrtSession) (ortAgent : EPDContainer)
    (msg : ImageMsg) (hh : msg.height ≠ 0) (hinit : ortAgent.isInit = true)
    (hw : ortAgent.width = msg.width) :
    topic_callback sess ortAgent msg =
      Except.ok (ortAgent, inferenceDispatch sess ortAgent (toCvCopy msg),
        [LogEvent.fps]) := by
  rw [topic_callback_initialized sess ortAgent msg hinit hh]
  rw [if_neg (by simp [hw])]

/-- Replaying the same frame on an already matching, initialized
container any number of times never changes the container. -/
theorem runFrames_steady (sess : OrtSession) (ortAgent : EPDContainer)
    (msg : ImageMsg) (k : Nat) (hh : msg.height ≠ 0)
    (hinit : ortAgent.isInit = true) (hw : ortAgent.width = msg.width) :
    runFrames sess ortAgent (List.replicate k msg) = Except.ok ortAgent := by
  induction k with
  | zero => rfl
  | succ n ih =>
      rw [List.replicate_succ, runFrames,
        topic_callback_steady sess ortAgent msg hh hinit hw]
      exact ih

/-- Claim C7: session bootstrap is one-shot and idempotent: K ≥ 1
identical valid frames of dimensions (W, H) initialize the ORT session
exactly once (on the first frame), and afterwards the container is
initialized with exactly those dimensions and stays so. -/
theorem bootstrap_idempotent (sess : OrtSession) (ortAgent : EPDContainer)
    (msg : ImageMsg) (K : Nat) (hK : 1 ≤ K)
    (hinit : ortAgent.isInit = false) (hh : msg.height ≠ 0) :
    ∃ st, runFrames sess ortAgent (List.replicate K msg) = Except.ok st ∧
      st.isInit = true ∧ st.sessionInits = ortAgent.sessionInits + 1 ∧
      st.width = msg.width ∧ st.height = msg.height := by
  obtain ⟨k, rfl⟩ : ∃ k, K = k + 1 := ⟨K - 1, by omega⟩
  refine ⟨bootedAgent ortAgent msg, ?_, rfl, rfl, rfl, rfl⟩
  rw [List.replicate_succ, runFrames,
    topic_callback_first sess ortAgent msg hh hinit]
  exact runFrames_steady sess _ msg k hh rfl rfl

/-- Witness for C7: three identical 640 by 480 frames on a fresh
container initialize the session exactly once. -/
theorem bootstrap_idempotent_witness :
    ∃ st, runFrames stubSession
        { isInit := false, width := 0, height := 0, precision_level := 1,
          visualize := false, sessionInits := 0 }
        (List.replicate 3 { height := 480, width := 640, data := [] }) =
        Except.ok st ∧
      st.isInit = true ∧ st.sessionInits = 0 + 1 ∧
      st.width = 640 ∧ st.height = 480 :=
  bootstrap_idempotent stubSession
    { isInit := false, width := 0, height := 0, precision_level := 1,
      visualize := false, sessionInits := 0 }
    { height := 480, width := 640, data := [] } 3
    (by decide) rfl (by decide)

/-- Claim C9: with a precision level outside {1, 2, 3}, a frame that
passes the empty-frame guard and the geometry guard completes without
error and without any publication — the dispatch switch has no default
case — and only the FPS latency log is emitted. -/
theorem unknown_precision_silent (sess : OrtSession)
    (ortAgent : EPDContainer) (msg : ImageMsg)
    (h1 : ortAgent.precision_level ≠ 1)
    (h2 : ortAgent.precision_level ≠ 2)
    (h3 : ortAgent.precision_level ≠ 3)
    (hh : msg.height ≠ 0)
    (hgeom : ortAgent.isInit = true →
      ortAgent.width = msg.width ∨ ortAgent.height = msg.height) :
    ∃ st, topic_callback sess ortAgent msg =
      Except.ok (st, [], [LogEvent.fps]) := by
  cases hinit : ortAgent.isInit with
  | false =>
      refine ⟨bootedAgent ortAgent msg, ?_⟩
      rw [topic_callback_first sess ortAgent msg hh hinit]
      simp [inferenceDispatch, bootedAgent, h1, h2, h3]
  | true =>
      refine ⟨ortAgent, ?_⟩
      rw [topic_callback_initialized sess ortAgent msg hinit hh]
      rw [if_neg (by rcases hgeom hinit with h | h <;> simp [h])]
      simp [inferenceDispatch, h1, h2, h3]

/-- Witness for C9: a fresh container with precision level 4 consumes a
valid frame silently, emitting only the FPS log. -/
theorem unknown_precision_silent_witness :
    ∃ st, topic_callback stubSession
      { isInit := false, width := 0, height := 0, precision_level := 4,
        visualize := false, sessionInits := 0 }
      { height := 480, width := 640, data := [] } =
      Except.ok (st, [], [LogEvent.fps]) :=
  unknown_precision_silent stubSession
    { isInit := false, width := 0, height := 0, precision_level := 4,
      visualize := false, sessionInits := 0 }
    { height := 480, width := 640, data := [] }
    (by decide) (by decide) (by decide) (by decide)
    (by intro h; exact absurd h (by decide))

/-- Claim C10: the empty-frame guard reads only the height: a frame with
width 0 but positive height is not rejected — it proceeds through
decoding into session bootstrap (which initializes the session) and into
inference dispatch, ending with the FPS log. -/
theorem zero_width_not_rejected (sess : OrtSession)
    (ortAgent : EPDContainer) (msg : ImageMsg) (hw : msg.width = 0)
    (hh : msg.height ≠ 0) (hinit : ortAgent.isInit = false) :
    topic_callback sess ortAgent msg =
      Except.ok (bootedAgent ortAgent msg,
        inferenceDispatch sess (bootedAgent ortAgent msg) (toCvCopy msg),
        [LogEvent.fps]) ∧
    (bootedAgent ortAgent msg).isInit = true ∧
    (bootedAgent ortAgent msg).sessionInits = ortAgent.sessionInits + 1 ∧
    (bootedAgent ortAgent msg).width = 0 ∧
    (bootedAgent ortAgent msg).height = msg.height :=
  ⟨topic_callback_first sess ortAgent msg hh hinit, rfl, rfl,
    by rw [← hw]; rfl, rfl⟩

/-- Witness for C10 at the concrete frame `{height 480, width 0}`. -/
theorem zero_width_not_rejected_witness :
    topic_callback stubSession
      { isInit := false, width := 7, height := 7, precision_level := 1,
        visualize := false, sessionInits := 0 }
      { height := 480, width := 0, data := [] } =
      Except.ok
        (bootedAgent
          { isInit := false, width := 7, height := 7, precision_level := 1,
            visualize := false, sessionInits := 0 }
          { height := 480, width := 0, data := [] },
         inferenceDispatch stubSession
          (bootedAgent
            { isInit := false, width := 7, height := 7, precision_level := 1,
              visualize := false, sessionInits := 0 }
            { height := 480, width := 0, data := [] })
          (toCvCopy { height := 480, width := 0, data := [] }),
         [LogEvent.fps]) ∧
    True :=
  ⟨(zero_width_not_rejected stubSession
      { isInit := false, width := 7, height := 7, precision_level := 1,
        visualize := false, sessionInits := 0 }
      { height := 480, width := 0, data := [] }
      rfl (by decide) rfl).1, trivial⟩
